import Mathlib

/-!
Shallow embedding of the reimbursement rule-evaluation engine of
src/solution/calculate_reimbursement.py.

The engine is a pure function of a trip description: days (integer),
miles and receipts (non-negative reals, here embedded as rationals).
Each block of the source function main is embedded as one Lean
definition below, in the order the source executes them; the overall
engine is their composition, and the invalid-input assertion is modelled
by an Option result.
-/

namespace Reimb

/-- Rounding to the nearest integer with ties to even, the semantics of
the round builtin used by the source for the cents computation. -/
def roundHalfEven (q : ℚ) : ℤ :=
  if q - (⌊q⌋ : ℚ) = 1/2 then
    (if ⌊q⌋ % 2 = 0 then ⌊q⌋ else ⌊q⌋ + 1)
  else ⌊q + 1/2⌋

/-- Constant SUPER_PRODUCTIVITY_RECEIPT_CAP of the source. -/
def SUPER_PRODUCTIVITY_RECEIPT_CAP : ℚ := 1200

/-- Constant SUPER_PRODUCTIVITY_POST_CAP_RATE of the source. -/
def SUPER_PRODUCTIVITY_POST_CAP_RATE : ℚ := 0.2

/-- Constant MULTIDAY_RECEIPT_CAP of the source. -/
def MULTIDAY_RECEIPT_CAP : ℚ := 1500

/-- Constant MULTIDAY_POST_CAP_RATE of the source. -/
def MULTIDAY_POST_CAP_RATE : ℚ := 0.2

/-- Constant FIVE_DAY_SPENDING_LIMIT of the source. -/
def FIVE_DAY_SPENDING_LIMIT : ℚ := 200

/-- Constant MEDIUM_TRIP_SPENDING_LIMIT of the source. -/
def MEDIUM_TRIP_SPENDING_LIMIT : ℚ := 120

/-- Constant LONG_TRIP_SPENDING_LIMIT of the source. -/
def LONG_TRIP_SPENDING_LIMIT : ℚ := 90

/-- Constant MEDIUM_TRIP_OVERSPEND_MULTIPLIER of the source. -/
def MEDIUM_TRIP_OVERSPEND_MULTIPLIER : ℚ := 0.75

/-- Constant LONG_TRIP_OVERSPEND_MULTIPLIER of the source. -/
def LONG_TRIP_OVERSPEND_MULTIPLIER : ℚ := 0.65

/-- Constant HIGH_MILEAGE_EXEMPTION_THRESHOLD of the source. -/
def HIGH_MILEAGE_EXEMPTION_THRESHOLD : ℚ := 900

/-- Base per diem block of the source: step function of the trip length. -/
def base (days : ℤ) : ℚ :=
  if days = 1 then 120
  else if days ≤ 3 then (days : ℚ) * 105
  else if days ≤ 6 then (days : ℚ) * 95
  else if days ≤ 10 then (days : ℚ) * 85
  else (days : ℚ) * 75

/-- Mileage block of the source: three-tier schedule 0.58 / 0.45 / 0.35. -/
def mileage (miles : ℚ) : ℚ :=
  if miles ≤ 100 then miles * 0.58
  else if miles ≤ 500 then 100 * 0.58 + (miles - 100) * 0.45
  else 100 * 0.58 + 400 * 0.45 + (miles - 500) * 0.35

/-- Single-day super-productivity receipt schedule of the source, with the
value of its third branch (the one guarded by receipts ≤ 1200 after the
cap test) abstracted as a parameter, so that its unreachability can be
stated as: the result does not depend on that parameter. -/
def superProdSingleGen (deadVal : ℚ) (receipts : ℚ) : ℚ :=
  if receipts ≤ 800 then receipts * 1.2
  else if receipts ≤ SUPER_PRODUCTIVITY_RECEIPT_CAP then
    800 * 1.2 + (receipts - 800) * 0.9
  else if receipts ≤ 1200 then deadVal
  else 800 * 1.2 + (SUPER_PRODUCTIVITY_RECEIPT_CAP - 800) * 0.9 + 400 * 0.4
        + (receipts - 1200) * 0.1

/-- Single-day super-productivity receipt schedule exactly as in the source,
its third branch instantiated with the expression the source writes there. -/
def superProdSingle (receipts : ℚ) : ℚ :=
  superProdSingleGen
    (800 * 1.2 + (SUPER_PRODUCTIVITY_RECEIPT_CAP - 800) * 0.9
      + (receipts - SUPER_PRODUCTIVITY_RECEIPT_CAP) * 0.4)
    receipts

/-- Multi-day super-productivity receipt schedule of the source. -/
def superProdMulti (receipts : ℚ) : ℚ :=
  if receipts ≤ 800 then receipts * 1.2
  else if receipts ≤ 1600 then 800 * 1.2 + (receipts - 800) * 0.9
  else if receipts ≤ 2000 then 800 * 1.2 + 800 * 0.9 + (receipts - 1600) * 0.6
  else 800 * 1.2 + 800 * 0.9 + 400 * 0.6 + (receipts - 2000) * 0.3

/-- High-efficiency receipt schedule of the source. -/
def highEff (receipts : ℚ) : ℚ :=
  if receipts ≤ 400 then receipts * 0.4
  else if receipts ≤ 1000 then 400 * 0.4 + (receipts - 400) * 0.25
  else if receipts ≤ 1500 then 400 * 0.4 + 600 * 0.25 + (receipts - 1000) * 0.15
  else if receipts ≤ 2000 then
    400 * 0.4 + 600 * 0.25 + 500 * 0.15 + (receipts - 1500) * 0.1
  else 400 * 0.4 + 600 * 0.25 + 500 * 0.15 + 500 * 0.1 + (receipts - 2000) * 0.05

/-- Sweet-spot receipt schedule of the source, with its trip-length-conditional
extension above 1200. -/
def sweetSpot (days : ℤ) (receipts : ℚ) : ℚ :=
  if receipts ≤ 600 then receipts * 0.8
  else if receipts ≤ 1200 then 600 * 0.8 + (receipts - 600) * 0.65
  else if 7 ≤ days then
    (if receipts ≤ 2000 then 600 * 0.8 + 600 * 0.65 + (receipts - 1200) * 0.6
     else 600 * 0.8 + 600 * 0.65 + 800 * 0.6 + (receipts - 2000) * 0.3)
  else
    (if receipts ≤ 2000 then 600 * 0.8 + 600 * 0.65 + (receipts - 1200) * 0.5
     else 600 * 0.8 + 600 * 0.65 + 800 * 0.5 + (receipts - 2000) * 0.2)

/-- Bucket loop of the standard-efficiency branch of the source: spend the
amount through the buckets in order, none standing for the unbounded last
bucket, stopping when nothing remains. -/
def runBuckets : List (Option ℚ × ℚ) → ℚ → ℚ
  | [], _ => 0
  | (limit, rate) :: rest, remaining =>
    let ap := match limit with
      | none => remaining
      | some l => min remaining l
    ap * rate + (if remaining - ap ≤ 0 then 0 else runBuckets rest (remaining - ap))

/-- Standard-efficiency receipt schedule of the source: bucketed accumulation,
with a lowered top-bucket rate for 5-day trips. -/
def standardZone (days : ℤ) (receipts : ℚ) : ℚ :=
  if days = 5 then
    runBuckets [(some 400, 0.65), (some 600, 0.45), (none, 0.10)] receipts
  else
    runBuckets [(some 400, 0.65), (some 600, 0.45), (none, 0.25)] receipts

/-- Low-efficiency receipt schedule of the source. -/
def lowEff (receipts : ℚ) : ℚ :=
  if receipts ≤ 200 then receipts * 0.5
  else if receipts ≤ 600 then 200 * 0.5 + (receipts - 200) * 0.3
  else 200 * 0.5 + 400 * 0.3 + (receipts - 600) * 0.15

/-- Zone dispatch of the source: the near-zero receipt rule first, then the
efficiency zones in the order the source checks them. -/
def receipt_component (days : ℤ) (miles receipts : ℚ) : ℚ :=
  if receipts < 50 ∨ (10 ≤ days ∧ receipts / (days : ℚ) < 15) then 0
  else if 1000 < miles / (days : ℚ) then receipts * 0.1
  else if 600 ≤ miles / (days : ℚ) ∧ miles / (days : ℚ) ≤ 900 then
    (if days = 1 then superProdSingle receipts else superProdMulti receipts)
  else if 400 < miles / (days : ℚ) then highEff receipts
  else if 160 ≤ miles / (days : ℚ) then sweetSpot days receipts
  else if 100 < miles / (days : ℚ) then standardZone days receipts
  else lowEff receipts

/-- Five-day receipt multiplier of the source adjustment block. -/
def adj5day (days : ℤ) (mpd rpd : ℚ) (c : ℚ) : ℚ :=
  if days = 5 then
    (if rpd ≤ 150 ∧ 80 ≤ mpd then c * 1.1
     else if rpd ≤ 100 then c * 1.05
     else c)
  else c

/-- Small-receipt penalty of the source, gated by the mileage exemption. -/
def adjLowSpend (days : ℤ) (mpd receipts : ℚ) (c : ℚ) : ℚ :=
  if mpd < 80 then
    (if days = 1 then
      (if receipts < 30 then c - 40
       else if receipts < 100 then c - 20
       else c)
     else if days = 2 then
      (if receipts < 50 then c - 20 else c)
     else
      (if receipts < 30 then c - 20 else c))
  else c

/-- Cents extraction of the source: round((receipts - int(receipts)) * 100),
with int truncation equal to the floor on the non-negative inputs the
engine is called with. -/
def centsOf (receipts : ℚ) : ℤ :=
  roundHalfEven ((receipts - (⌊receipts⌋ : ℚ)) * 100)

/-- Rounding-bug bonus of the source: plus 8 when the cents are 49 or 99. -/
def adjDigit (receipts : ℚ) (c : ℚ) : ℚ :=
  if centsOf receipts = 49 ∨ centsOf receipts = 99 then c + 8 else c

/-- Pseudo-calendar hash of the source: int(receipts * 100) mod 7. -/
def receiptHash (receipts : ℚ) : ℤ :=
  ⌊receipts * 100⌋ % 7

/-- Pseudo-calendar adjustment of the source. -/
def adjCalendar (receipts : ℚ) (c : ℚ) : ℚ :=
  if receiptHash receipts = 1 then c + 10
  else if receiptHash receipts = 4 then c - 5
  else c

/-- Fixed per-zone rate the source removes the high-receipt excess at
(the last_rate chain of the multi-day cap block). -/
def lastRate (days : ℤ) (mpd : ℚ) : ℚ :=
  if 1000 < mpd then 0.1
  else if 600 ≤ mpd ∧ mpd ≤ 900 then
    (if 1 < days then 0.6 else SUPER_PRODUCTIVITY_POST_CAP_RATE)
  else if 400 < mpd then 0.15
  else if 160 ≤ mpd then 0.5
  else if 100 ≤ mpd then 0.25
  else 0.15

/-- Multi-day high-receipt correction of the source: remove the excess over
1500 at the zone's fixed last rate, re-add it at the flat post-cap rate. -/
def adjMultiDay (days : ℤ) (mpd receipts : ℚ) (c : ℚ) : ℚ :=
  if 5 ≤ days ∧ MULTIDAY_RECEIPT_CAP < receipts then
    c - (receipts - MULTIDAY_RECEIPT_CAP) * lastRate days mpd
      + (receipts - MULTIDAY_RECEIPT_CAP) * MULTIDAY_POST_CAP_RATE
  else c

/-- Per-day overspend multipliers of the source, with the high-mileage
exemption for long trips. -/
def adjOverspend (days : ℤ) (miles rpd : ℚ) (c : ℚ) : ℚ :=
  if days = 5 then
    (if FIVE_DAY_SPENDING_LIMIT < rpd then c * 0.85 else c)
  else if days = 6 then
    (if MEDIUM_TRIP_SPENDING_LIMIT < rpd then c * MEDIUM_TRIP_OVERSPEND_MULTIPLIER else c)
  else if 7 ≤ days then
    (if LONG_TRIP_SPENDING_LIMIT < rpd ∧ miles < HIGH_MILEAGE_EXEMPTION_THRESHOLD then
       c * LONG_TRIP_OVERSPEND_MULTIPLIER
     else c)
  else c

/-- Softening override of the source for 1-day, over-1000-mile,
over-1000-receipt trips. -/
def adjOverride (days : ℤ) (miles receipts : ℚ) (c : ℚ) : ℚ :=
  if days = 1 ∧ 1000 < miles ∧ 1000 < receipts then
    1000 * 0.1 + (receipts - 1000) * 0.4
  else c

/-- Graduated sanity caps of the source, an if-chain checked in order with
only the first matching cap applied. -/
def applyCaps (days : ℤ) (receipts total : ℚ) : ℚ :=
  if 1500 ≤ receipts ∧ receipts * 1.5 < total then receipts * 1.5
  else if 1000 ≤ receipts ∧ receipts * 2 < total then receipts * 2
  else if 500 ≤ receipts ∧ receipts * 2.5 < total then receipts * 2.5
  else if 100 ≤ receipts ∧ 15 ≤ receipts / (days : ℚ) ∧ receipts * 4 < total then
    receipts * 4
  else total

/-- Total before the sanity caps: adjusted base plus mileage plus the receipt
component threaded through the adjustment chain in source order. -/
def preCapTotal (days : ℤ) (miles receipts : ℚ) : ℚ :=
  (base days + (if days = 5 then 75 else 0)) + mileage miles +
    adjOverride days miles receipts
      (adjOverspend days miles (receipts / (days : ℚ))
        (adjMultiDay days (miles / (days : ℚ)) receipts
          (adjCalendar receipts
            (adjDigit receipts
              (adjLowSpend days (miles / (days : ℚ)) receipts
                (adj5day days (miles / (days : ℚ)) (receipts / (days : ℚ))
                  (receipt_component days miles receipts)))))))

/-- Full rule evaluation on validated inputs. -/
def computeTotal (days : ℤ) (miles receipts : ℚ) : ℚ :=
  applyCaps days receipts (preCapTotal days miles receipts)

/-- The engine including the input assertion of the source: none models the
failed assertion (non-zero exit, no numeric output). -/
def calculateReimbursement (days : ℤ) (miles receipts : ℚ) : Option ℚ :=
  if 0 < days ∧ 0 ≤ miles ∧ 0 ≤ receipts then
    some (computeTotal days miles receipts)
  else none

/-- The printed number: the total rounded to two decimal places. -/
def printedTotal (days : ℤ) (miles receipts : ℚ) : Option ℚ :=
  Option.map (fun t => (roundHalfEven (t * 100) : ℚ) / 100)
    (calculateReimbursement days miles receipts)

/-- Helper: rounding an integer changes nothing. -/
theorem roundHalfEven_intCast (k : ℤ) : roundHalfEven (k : ℚ) = k := by
  unfold roundHalfEven
  rw [Int.floor_intCast]
  rw [if_neg (by norm_num)]
  rw [add_comm, Int.floor_add_int]
  norm_num

/-- Helper: for an amount of n cents, the cents extracted by the source are
exactly n mod 100. -/
theorem centsOf_natCast_div (n : ℕ) :
    centsOf ((n : ℚ) / 100) = ((n % 100 : ℕ) : ℤ) := by
  unfold centsOf
  have hf : ⌊(n : ℚ) / 100⌋ = ((n / 100 : ℕ) : ℤ) := by
    have h := Rat.floor_natCast_div_natCast n 100
    exact_mod_cast h
  rw [hf]
  have key : ((n : ℚ) / 100 - (((n / 100 : ℕ) : ℤ) : ℚ)) * 100
      = (((n % 100 : ℕ) : ℤ) : ℚ) := by
    have h : (n : ℚ) = 100 * ((n / 100 : ℕ) : ℚ) + ((n % 100 : ℕ) : ℚ) := by
      exact_mod_cast (Nat.div_add_mod n 100).symm
    have c1 : (((n / 100 : ℕ) : ℤ) : ℚ) = ((n / 100 : ℕ) : ℚ) := by norm_cast
    have c2 : (((n % 100 : ℕ) : ℤ) : ℚ) = ((n % 100 : ℕ) : ℚ) := by norm_cast
    rw [c1, c2, h]
    ring
  rw [key, roundHalfEven_intCast]

attribute [simp] roundHalfEven SUPER_PRODUCTIVITY_RECEIPT_CAP
  SUPER_PRODUCTIVITY_POST_CAP_RATE MULTIDAY_RECEIPT_CAP MULTIDAY_POST_CAP_RATE
  FIVE_DAY_SPENDING_LIMIT MEDIUM_TRIP_SPENDING_LIMIT LONG_TRIP_SPENDING_LIMIT
  MEDIUM_TRIP_OVERSPEND_MULTIPLIER LONG_TRIP_OVERSPEND_MULTIPLIER
  HIGH_MILEAGE_EXEMPTION_THRESHOLD base mileage superProdSingleGen
  superProdSingle superProdMulti highEff sweetSpot runBuckets standardZone
  lowEff receipt_component adj5day adjLowSpend centsOf adjDigit receiptHash
  adjCalendar lastRate adjMultiDay adjOverspend adjOverride applyCaps
  preCapTotal computeTotal calculateReimbursement printedTotal

/-- C2 counterexample: at days=1, miles=50, receipts=10 the receipts are below
50, yet the final total is 109, not the base plus mileage 149, because the
low-spend penalty still subtracts 40 after the receipt component was zeroed. -/
theorem C2_counterexample :
    calculateReimbursement 1 50 10 = some 109 ∧
    base 1 + mileage 50 = 149 ∧ (109 : ℚ) ≠ 149 := by
  norm_num

/-- C2 (amended): whenever receipts < 50, or days ≥ 10 and receipts per day
below 15, the zone receipt schedule outputs exactly 0 regardless of zone;
later adjustments may still change the receipt contribution. -/
theorem C2_near_zero_schedule (days : ℤ) (miles receipts : ℚ)
    (h : receipts < 50 ∨ (10 ≤ days ∧ receipts / (days : ℚ) < 15)) :
    receipt_component days miles receipts = 0 := by
  unfold receipt_component
  rw [if_pos h]

/-- C2 witness: the near-zero rule at days=1, miles=50, receipts=10. -/
theorem C2_near_zero_schedule_witness : receipt_component 1 50 10 = 0 :=
  C2_near_zero_schedule 1 50 10 (Or.inl (by norm_num))

/-- C5 counterexample: with days=1 and receipts=800 fixed, raising miles from
900 to 901 drops the total from 1453 to 753.35, because the efficiency zone
changes from super-productivity to high-efficiency; the overall result is
therefore not non-decreasing in miles. -/
theorem C5_counterexample :
    calculateReimbursement 1 900 800 = some 1453 ∧
    calculateReimbursement 1 901 800 = some (753.35 : ℚ) ∧
    ¬ ((1453 : ℚ) ≤ (753.35 : ℚ)) := by
  norm_num

/-- C5 (amended): the mileage component is strictly increasing in miles,
within each tier and across tiers; the overall result however need not be
non-decreasing in miles, since the zone classification can change. -/
theorem C5_mileage_strict_mono (m1 m2 : ℚ) (h : m1 < m2) :
    mileage m1 < mileage m2 := by
  unfold mileage
  split_ifs <;> linarith

/-- C5 witness: miles 900 versus 901. -/
theorem C5_mileage_strict_mono_witness : mileage 900 < mileage 901 :=
  C5_mileage_strict_mono 900 901 (by norm_num)

/-- C6: for valid inputs with receipts at least 1500, the capped total is
exactly the minimum of the pre-cap total and receipts times 1.5 (so the first
cap of the chain is the one that decides, none of the later ones fires), and
it is at most receipts times 1.5. -/
theorem C6_cap_enforcement (days : ℤ) (miles receipts : ℚ) (hd : 0 < days)
    (hm : 0 ≤ miles) (hr : 1500 ≤ receipts) :
    calculateReimbursement days miles receipts
      = some (min (preCapTotal days miles receipts) (receipts * 1.5)) ∧
    min (preCapTotal days miles receipts) (receipts * 1.5) ≤ receipts * 1.5 := by
  constructor
  · unfold calculateReimbursement
    rw [if_pos ⟨hd, hm, by linarith⟩]
    unfold computeTotal applyCaps
    split_ifs with h1 h2 h3 h4
    · rw [min_eq_right (le_of_lt h1.2)]
    · push_neg at h1
      have hle := h1 hr
      exfalso
      linarith [h2.2]
    · push_neg at h1
      have hle := h1 hr
      exfalso
      linarith [h3.2]
    · push_neg at h1
      have hle := h1 hr
      exfalso
      linarith [h4.2.2]
    · push_neg at h1
      have hle := h1 hr
      rw [min_eq_left hle]
  · exact min_le_right _ _

/-- C6 witness: a concrete high-receipt trip, days=3, miles=2100,
receipts=1600. -/
theorem C6_cap_enforcement_witness :
    calculateReimbursement 3 2100 1600
      = some (min (preCapTotal 3 2100 1600) ((1600 : ℚ) * 1.5)) ∧
    min (preCapTotal 3 2100 1600) ((1600 : ℚ) * 1.5) ≤ (1600 : ℚ) * 1.5 :=
  C6_cap_enforcement 3 2100 1600 (by norm_num) (by norm_num) (by norm_num)

/-- C8: any invocation with non-positive days, negative miles or negative
receipts fails the input assertion before any rule evaluation and produces no
numeric output, modelled as a none result. -/
theorem C8_invalid_input (days : ℤ) (miles receipts : ℚ)
    (h : days ≤ 0 ∨ miles < 0 ∨ receipts < 0) :
    calculateReimbursement days miles receipts = none := by
  unfold calculateReimbursement
  rw [if_neg]
  rintro ⟨hd, hm, hr⟩
  rcases h with h | h | h
  · omega
  · linarith
  · linarith

/-- C8 witness: the days=0 call of Scenario D. -/
theorem C8_invalid_input_witness : calculateReimbursement 0 0 0 = none :=
  C8_invalid_input 0 0 0 (Or.inl (by norm_num))

/-- C1 counterexample: for days=5, miles=900, receipts=300 the mileage
component of the tiered schedule is 378, not 238, and the printed total is
1192.00, not 1052.00. -/
theorem C1_counterexample :
    mileage 900 ≠ 238 ∧ printedTotal 5 900 300 ≠ some 1052 := by
  norm_num

/-- C1 (amended): for days=5, miles=900, receipts=300 the engine produces
base 550 (95 times 5 plus the 75 five-day bonus), mileage 378 from the
schedule 100 times 0.58 plus 400 times 0.45 plus 400 times 0.35, receipt
component 264 (300 times 0.80, then times 1.10), and a printed total of
exactly 1192.00 with no cap triggering. -/
theorem C1_scenario_b :
    base 5 = 475 ∧
    mileage 900 = 100 * 0.58 + 400 * 0.45 + 400 * 0.35 ∧
    mileage 900 = 378 ∧
    receipt_component 5 900 300 = 300 * 0.8 ∧
    adj5day 5 (900 / 5) (300 / 5) (300 * 0.8) = 264 ∧
    preCapTotal 5 900 300 = 550 + 378 + 264 ∧
    applyCaps 5 300 1192 = 1192 ∧
    printedTotal 5 900 300 = some 1192 := by
  norm_num

/-- C3 counterexample: in the super-productivity zone a 2-day trip with
receipts 1400 is paid 1500 by the code (the 0.9 band runs to 1600 for
multi-day trips), not the 1400 that a schedule paying 0.9 only up to 1200 and
0.4 beyond would give. -/
theorem C3_counterexample :
    receipt_component 2 1400 1400 = 1500 ∧
    superProdMulti 1400 = 1500 ∧
    (1500 : ℚ) ≠ 800 * 1.2 + 400 * 0.9 + (1400 - 1200) * 0.4 := by
  norm_num

/-- C3 (amended): the super-productivity receipt schedules are asymmetric.
Single-day trips: 1.20 on the first 800, 0.90 on the next 400 (to 1200), and
a diminishing 0.10 band beyond 1200 on top of a fixed 160. Multi-day trips:
1.20 on the first 800, 0.90 on the next 800 (to 1600), 0.60 on the next 400
(to 2000), 0.30 beyond. -/
theorem C3_schedules (r : ℚ) :
    (r ≤ 800 → superProdSingle r = r * 1.2 ∧ superProdMulti r = r * 1.2) ∧
    (800 < r → r ≤ 1200 → superProdSingle r = 800 * 1.2 + (r - 800) * 0.9) ∧
    (1200 < r →
      superProdSingle r = 800 * 1.2 + 400 * 0.9 + 400 * 0.4 + (r - 1200) * 0.1) ∧
    (800 < r → r ≤ 1600 → superProdMulti r = 800 * 1.2 + (r - 800) * 0.9) ∧
    (1600 < r → r ≤ 2000 →
      superProdMulti r = 800 * 1.2 + 800 * 0.9 + (r - 1600) * 0.6) ∧
    (2000 < r →
      superProdMulti r = 800 * 1.2 + 800 * 0.9 + 400 * 0.6 + (r - 2000) * 0.3) := by
  unfold superProdSingle superProdSingleGen superProdMulti
    SUPER_PRODUCTIVITY_RECEIPT_CAP
  refine ⟨?_, ?_, ?_, ?_, ?_, ?_⟩ <;> intros <;> split_ifs <;>
    first
      | constructor <;> linarith
      | linarith

/-- C3 witness: the multi-day schedule at receipts 1400 pays the 0.9 marginal
rate. -/
theorem C3_schedules_witness :
    superProdMulti 1400 = 800 * 1.2 + (1400 - 800) * 0.9 :=
  (C3_schedules 1400).2.2.2.1 (by norm_num) (by norm_num)

/-- C9: single-day super-productivity receipts jump at 1200: on (800, 1200]
the schedule is 960 plus 0.9 of the excess over 800 (1320 at 1200 exactly);
above 1200 it is 1480 plus 0.1 of the excess over 1200, which exceeds the
value at 1200 by more than 160; the branch guarded by receipts ≤ 1200 after
the cap test is unreachable (the result does not depend on its value); and
for a valid single-day trip in the zone the engine dispatches to exactly this
schedule. -/
theorem C9_single_day_jump (r x miles receipts : ℚ) :
    (800 < r → r ≤ 1200 → superProdSingle r = 800 * 1.2 + (r - 800) * 0.9) ∧
    superProdSingle 1200 = 1320 ∧
    (1200 < r →
      superProdSingle r = 800 * 1.2 + 400 * 0.9 + 400 * 0.4 + (r - 1200) * 0.1) ∧
    (1200 < r → superProdSingle 1200 + 160 < superProdSingle r) ∧
    superProdSingleGen x r = superProdSingle r ∧
    (600 ≤ miles → miles ≤ 900 → 50 ≤ receipts →
      receipt_component 1 miles receipts = superProdSingle receipts) := by
  refine ⟨?_, by norm_num, ?_, ?_, ?_, ?_⟩
  · intro h1 h2
    unfold superProdSingle superProdSingleGen SUPER_PRODUCTIVITY_RECEIPT_CAP
    split_ifs <;> linarith
  · intro h
    unfold superProdSingle superProdSingleGen SUPER_PRODUCTIVITY_RECEIPT_CAP
    split_ifs <;> linarith
  · intro h
    unfold superProdSingle superProdSingleGen SUPER_PRODUCTIVITY_RECEIPT_CAP
    split_ifs <;> linarith
  · unfold superProdSingle superProdSingleGen SUPER_PRODUCTIVITY_RECEIPT_CAP
    split_ifs <;> linarith
  · intro h1 h2 h3
    have hnz : ¬ (receipts < 50 ∨ (10 ≤ (1 : ℤ) ∧ receipts / ((1 : ℤ) : ℚ) < 15)) := by
      rintro (hlt | ⟨h10, _⟩)
      · linarith
      · omega
    unfold receipt_component
    rw [if_pos rfl, if_neg hnz, if_neg (by push_cast; simp; linarith),
      if_pos (by push_cast; simp; constructor <;> linarith)]

/-- C9 witness: the jump observed at receipts 1300 for a 700-mile single-day
trip. -/
theorem C9_single_day_jump_witness :
    superProdSingle 1300 = 800 * 1.2 + 400 * 0.9 + 400 * 0.4 + (1300 - 1200) * 0.1 ∧
    superProdSingle 1200 + 160 < superProdSingle 1300 ∧
    superProdSingleGen 0 1300 = superProdSingle 1300 ∧
    receipt_component 1 700 1300 = superProdSingle 1300 :=
  ⟨(C9_single_day_jump 1300 0 700 1300).2.2.1 (by norm_num),
   (C9_single_day_jump 1300 0 700 1300).2.2.2.1 (by norm_num),
   (C9_single_day_jump 1300 0 700 1300).2.2.2.2.1,
   (C9_single_day_jump 1300 0 700 1300).2.2.2.2.2 (by norm_num) (by norm_num)
     (by norm_num)⟩

/-- C10: the engine is not strictly positive on all valid inputs: at days=5,
miles=3000, receipts=100000 the multi-day high-receipt correction removes the
excess at 0.6 and re-adds it at 0.2, driving the receipt component far below
zero, and the reimbursement comes out as minus 5205. -/
theorem C10_negative_total :
    calculateReimbursement 5 3000 100000 = some (-5205) ∧
    ((-5205 : ℚ) < 0) := by
  norm_num

/-- C4 counterexample: days=5, miles=2500, receipts=1601 classifies as
high-efficiency; the rate actually active on the excess segment from 1500 to
1601 of that zone schedule is 0.1 (the fourth band), yet the correction
removes the excess at the fixed rate 0.15, so the corrected component is not
the one the excess-segment rate would give. -/
theorem C4_counterexample :
    highEff 1601 = highEff 1500 + (1601 - 1500) * 0.1 ∧
    adjMultiDay 5 500 1601 (395.1 : ℚ)
      = 395.1 - (1601 - 1500) * 0.15 + (1601 - 1500) * 0.2 ∧
    adjMultiDay 5 500 1601 (395.1 : ℚ)
      ≠ 395.1 - (1601 - 1500) * 0.1 + (1601 - 1500) * 0.2 ∧
    calculateReimbursement 5 2500 1601 = some (1828.1275 : ℚ) := by
  norm_num

/-- C4 (amended): for days ≥ 5 and receipts > 1500 the correction subtracts
the excess over 1500 at a fixed per-zone rate — 0.1 for the extreme zone, 0.6
for multi-day super-productivity, 0.15 for high efficiency, 0.5 for the sweet
spot, 0.25 for standard, 0.15 for low efficiency — not necessarily the rate
that was active for the excess segment, and re-adds the excess at the flat
0.20 rate. -/
theorem C4_fixed_rate_correction (days : ℤ) (mpd receipts c : ℚ)
    (h5 : 5 ≤ days) (hr : 1500 < receipts) :
    adjMultiDay days mpd receipts c
      = c - (receipts - 1500) * lastRate days mpd + (receipts - 1500) * 0.2 ∧
    (1000 < mpd → lastRate days mpd = 0.1) ∧
    (600 ≤ mpd ∧ mpd ≤ 900 → lastRate days mpd = 0.6) ∧
    (400 < mpd ∧ ¬ (600 ≤ mpd ∧ mpd ≤ 900) ∧ mpd ≤ 1000 →
      lastRate days mpd = 0.15) ∧
    (160 ≤ mpd ∧ mpd ≤ 400 → lastRate days mpd = 0.5) ∧
    (100 ≤ mpd ∧ mpd < 160 → lastRate days mpd = 0.25) ∧
    (mpd < 100 → lastRate days mpd = 0.15) := by
  refine ⟨?_, ?_, ?_, ?_, ?_, ?_, ?_⟩
  · unfold adjMultiDay MULTIDAY_RECEIPT_CAP MULTIDAY_POST_CAP_RATE
    rw [if_pos ⟨h5, hr⟩]
  · intro h
    unfold lastRate
    rw [if_pos h]
  · intro h
    unfold lastRate
    rw [if_neg (fun hx => by linarith [h.2]), if_pos h, if_pos (by omega)]
  · intro h
    unfold lastRate
    rw [if_neg (fun hx => by linarith [h.2.2]), if_neg h.2.1, if_pos h.1]
  · intro h
    unfold lastRate
    rw [if_neg (fun hx => by linarith [h.2]),
      if_neg (fun hx => by linarith [hx.1, h.2]),
      if_neg (fun hx => by linarith [h.2]), if_pos h.1]
  · intro h
    unfold lastRate
    rw [if_neg (fun hx => by linarith [h.2]),
      if_neg (fun hx => by linarith [hx.1, h.2]),
      if_neg (fun hx => by linarith [h.2]),
      if_neg (fun hx => by linarith [h.2]), if_pos h.1]
  · intro h
    unfold lastRate
    rw [if_neg (fun hx => by linarith), if_neg (fun hx => by linarith [hx.1]),
      if_neg (fun hx => by linarith), if_neg (fun hx => by linarith),
      if_neg (fun hx => by linarith)]

/-- C4 witness: the correction at days=5, zone high efficiency (mpd=500),
receipts=1601, incoming component 395.1. -/
theorem C4_fixed_rate_correction_witness :
    adjMultiDay 5 500 1601 (395.1 : ℚ)
      = 395.1 - (1601 - 1500) * lastRate 5 500 + (1601 - 1500) * 0.2 ∧
    lastRate 5 500 = 0.15 :=
  ⟨(C4_fixed_rate_correction 5 500 1601 (395.1 : ℚ) (by norm_num) (by norm_num)).1,
   (C4_fixed_rate_correction 5 500 1601 (395.1 : ℚ) (by norm_num)
      (by norm_num)).2.2.2.1 ⟨by norm_num, by norm_num, by norm_num⟩⟩

/-- C7: the digit-pattern bonus adds a flat 8 exactly when the cents component
of the receipt amount is 49 or 99; in particular 199.49 gets the bonus and
199.50 does not. -/
theorem C7_digit_bonus (n : ℕ) (c : ℚ) :
    (adjDigit ((n : ℚ) / 100) c = c + 8 ↔ (n % 100 = 49 ∨ n % 100 = 99)) ∧
    adjDigit (199.49 : ℚ) c = c + 8 ∧
    adjDigit (199.50 : ℚ) c = c := by
  refine ⟨?_, ?_, ?_⟩
  · unfold adjDigit
    rw [centsOf_natCast_div]
    constructor
    · intro h
      by_cases hc : ((n % 100 : ℕ) : ℤ) = 49 ∨ ((n % 100 : ℕ) : ℤ) = 99
      · omega
      · rw [if_neg hc] at h
        exfalso
        linarith
    · intro h
      rw [if_pos (by omega)]
  · norm_num
  · norm_num

/-- C7 witness: an amount of 19949 cents receives the bonus. -/
theorem C7_digit_bonus_witness :
    adjDigit ((19949 : ℚ) / 100) 0 = 0 + 8 :=
  (C7_digit_bonus 19949 0).1.mpr (by norm_num)

end Reimb
